import Mathlib

/-!
Shallow embedding of the ISARK-BOARD real-time relay core
(backend/socket/socketHandlers.js): socket authentication, room join,
drawing/chat/voice event fan-out, and the disconnect notice.

The server state carries the durable stores (users, rooms, boards, chats)
and the list of live sessions.  A socket.io socket is modelled as a
`Session` holding the ambient fields the source sets on the socket object
(`socket.userId`, `socket.user`, `socket.roomCode`) plus the set of
socket.io rooms the socket has `join`ed (the live broadcast membership,
which in socket.io is distinct from the `roomCode` routing field: `join`
never leaves previously joined rooms).

Each handler is a pure function from the state and the event arguments to
the new state and the list of emitted events `(recipient socket id, event)`.
Fallible store calls (Mongoose queries that can reject) take an explicit
Boolean oracle saying whether that call threw; a thrown call lands in the
handler's catch block exactly as in the source.
-/

structure User where
  uid : String
  username : String
  avatar : String
deriving DecidableEq, Repr

/-- A live socket: the fields socketHandlers.js stores on the socket object
(`socket.userId`, `socket.user`, `socket.roomCode`) plus the socket.io room
membership created by `socket.join`. -/
structure Session where
  sid : Nat
  userId : String
  user : User
  roomCode : Option String
  rooms : List String
deriving DecidableEq, Repr

/-- A durable room record: `roomId` is the human room code the handlers look
up with `Room.findOne({ roomId })`; `mongoId` is the storage `_id` that chat
rows and the board reference. -/
structure Room where
  roomId : String
  mongoId : String
  participants : List String
deriving DecidableEq, Repr

structure Board where
  roomId : String
  elements : List String
  lastClearedBy : Option String
deriving DecidableEq, Repr

/-- A persisted chat row as `Chat.create` writes it. -/
structure Chat where
  cid : String
  roomId : String
  sender : String
  message : String
  createdAt : Nat
deriving DecidableEq, Repr

/-- The broadcast form of a chat message: the persisted row re-read with
`populate('sender', 'username avatar')`, so the sender field is the user
record looked up in the user store. -/
structure PopulatedChat where
  cid : String
  roomId : String
  sender : Option User
  message : String
  createdAt : Nat
deriving DecidableEq, Repr

/-- The payload of a `drawing-update` event: the `type` sub-kind and the
`userId` field the server overwrites; every other field (coordinates,
color, tool, ...) is relayed opaquely and folded into `payload`. -/
structure DrawData where
  type : String
  userId : Option String
  payload : String
deriving DecidableEq, Repr

/-- Server-to-client events the handlers emit. -/
inductive ClientEvent where
  | userJoined (userId username avatar : String)
  | userLeft (userId username : String)
  | drawingUpdate (d : DrawData)
  | chatMessage (m : PopulatedChat)
  | voiceToggle (userId username : String) (isEnabled : Bool)
  | voiceReady (userId username : String)
  | webrtcOffer (userId offer : String)
  | webrtcAnswer (userId answer : String)
  | webrtcIceCandidate (userId candidate : String)
  | errorEvent (msg : String)
deriving DecidableEq, Repr

/-- An emission: which socket id receives which event. -/
abbrev Emit := Nat × ClientEvent

structure ServerState where
  users : List User
  rooms : List Room
  boards : List Board
  chats : List Chat
  sessions : List Session
deriving DecidableEq, Repr

def ServerState.findSession (st : ServerState) (sid : Nat) : Option Session :=
  st.sessions.find? (fun s => s.sid == sid)

def ServerState.updateSession (st : ServerState) (sid : Nat) (f : Session → Session) :
    ServerState :=
  { st with sessions := st.sessions.map (fun s => if s.sid == sid then f s else s) }

def ServerState.removeSession (st : ServerState) (sid : Nat) : ServerState :=
  { st with sessions := st.sessions.filter (fun s => s.sid != sid) }

/-- The socket.io `socket.to(room).emit(ev)` primitive: deliver to every
session that has joined `rc`, except the sending socket. -/
def broadcastExcept (st : ServerState) (rc : String) (sender : Nat) (ev : ClientEvent) :
    List Emit :=
  (st.sessions.filter (fun s => s.rooms.contains rc && s.sid != sender)).map
    (fun s => (s.sid, ev))

/-- The socket.io `io.to(room).emit(ev)` primitive: deliver to every session
that has joined `rc`, the sender included. -/
def broadcastAll (st : ServerState) (rc : String) (ev : ClientEvent) : List Emit :=
  (st.sessions.filter (fun s => s.rooms.contains rc)).map (fun s => (s.sid, ev))

/-- Modelled from the spec: models/board.js is not among the sources, only
its call site `board.clearBoard(socket.userId)` is.  Per the spec, clearing
"locates the room's board snapshot and resets it, attributing the action to
the actor for audit purposes". -/
def Board.clearBoard (b : Board) (actor : String) : Board :=
  { b with elements := [], lastClearedBy := some actor }

def ServerState.updateBoard (st : ServerState) (mid : String) (f : Board → Board) :
    ServerState :=
  { st with boards := st.boards.map (fun b => if b.roomId == mid then f b else b) }

/-- The outcome of inspecting `socket.handshake.auth.token`: absent, not
verifiable by `jwt.verify` (bad signature/expired, which throws), or a valid
token whose payload `_id` is `uid`. -/
inductive TokenOutcome where
  | missing
  | invalidSignature
  | valid (uid : String)
deriving DecidableEq, Repr

/-- authenticateSocket: missing token, a throwing `jwt.verify`, and an
unknown `_id` all call `next(new Error('Authentication error'))`; a found
user is attached to the socket. -/
def authenticateSocket (users : List User) (tok : TokenOutcome) : Except String User :=
  match tok with
  | .missing => .error "Authentication error"
  | .invalidSignature => .error "Authentication error"
  | .valid uid =>
    match users.find? (fun u => u.uid == uid) with
    | none => .error "Authentication error"
    | some u => .ok u

/-- A connection attempt: on authentication success the socket enters the
relay as a fresh session tagged with the verified identity; on failure the
middleware rejects it (the error string is returned, no session is added). -/
def connectSocket (st : ServerState) (sid : Nat) (tok : TokenOutcome) :
    ServerState × Option String :=
  match authenticateSocket st.users tok with
  | .error e => (st, some e)
  | .ok u =>
    ({ st with sessions :=
        st.sessions ++ [{ sid := sid, userId := u.uid, user := u,
                          roomCode := none, rooms := [] }] }, none)

/-- The join-room handler.  `findThrows` says whether `Room.findOne` threw
(caught as error 'Failed to join room').  Otherwise: unknown code is error
'Room not found'; identity not in `room.participants` is error 'Access
denied'; else `socket.join(code)`, `socket.roomCode = code`, then
`socket.to(code).emit('user-joined', ...)`. -/
def joinRoom (st : ServerState) (sid : Nat) (code : String) (findThrows : Bool) :
    ServerState × List Emit :=
  match st.findSession sid with
  | none => (st, [])
  | some sock =>
    if findThrows then
      (st, [(sid, .errorEvent "Failed to join room")])
    else
      match st.rooms.find? (fun r => r.roomId == code) with
      | none => (st, [(sid, .errorEvent "Room not found")])
      | some room =>
        if room.participants.contains sock.userId then
          let st' := st.updateSession sid (fun s =>
            { s with roomCode := some code,
                     rooms := if s.rooms.contains code then s.rooms else code :: s.rooms })
          (st', broadcastExcept st' code sid
            (.userJoined sock.userId sock.user.username sock.user.avatar))
        else
          (st, [(sid, .errorEvent "Access denied")])

/-- The drawing-update handler.  No active room: silent return.  Otherwise
the payload is relayed to the room minus the sender with `userId` overwritten
by the session identity; when the sub-kind is 'clear' the handler then finds
the room, finds its board and calls `clearBoard` — each of the three store
calls may throw (`roomFindThrows`/`boardFindThrows`/`clearThrows`), landing
in the catch block after the relay already happened; a null room or board is
silently skipped. -/
def drawingUpdate (st : ServerState) (sid : Nat) (data : DrawData)
    (roomFindThrows boardFindThrows clearThrows : Bool) : ServerState × List Emit :=
  match st.findSession sid with
  | none => (st, [])
  | some sock =>
    match sock.roomCode with
    | none => (st, [])
    | some rc =>
      let relay := broadcastExcept st rc sid
        (.drawingUpdate { data with userId := some sock.userId })
      if data.type == "clear" then
        if roomFindThrows then
          (st, relay ++ [(sid, .errorEvent "Failed to update drawing")])
        else
          match st.rooms.find? (fun r => r.roomId == rc) with
          | none => (st, relay)
          | some room =>
            if boardFindThrows then
              (st, relay ++ [(sid, .errorEvent "Failed to update drawing")])
            else
              match st.boards.find? (fun b => b.roomId == room.mongoId) with
              | none => (st, relay)
              | some _ =>
                if clearThrows then
                  (st, relay ++ [(sid, .errorEvent "Failed to update drawing")])
                else
                  (st.updateBoard room.mongoId (fun b => b.clearBoard sock.userId), relay)
      else
        (st, relay)

/-- The chat-message handler.  No active room: silent return.  Otherwise the
room is looked up (`roomFindThrows` = the query threw; a null result is error
'Room not found'), the row is created (`createThrows` = `Chat.create` threw,
nothing persisted), re-read populated with the sender's username/avatar
(`populateThrows` = the re-read threw, row already persisted), and only then
broadcast with `io.to(room)` to the whole room, sender included.  Every
caught throw is error 'Failed to send message' to the sender. -/
def chatMessage (st : ServerState) (sid : Nat) (text : String)
    (roomFindThrows createThrows populateThrows : Bool)
    (newId : String) (now : Nat) : ServerState × List Emit :=
  match st.findSession sid with
  | none => (st, [])
  | some sock =>
    match sock.roomCode with
    | none => (st, [])
    | some rc =>
      if roomFindThrows then
        (st, [(sid, .errorEvent "Failed to send message")])
      else
        match st.rooms.find? (fun r => r.roomId == rc) with
        | none => (st, [(sid, .errorEvent "Room not found")])
        | some room =>
          if createThrows then
            (st, [(sid, .errorEvent "Failed to send message")])
          else
            let chat : Chat :=
              { cid := newId, roomId := room.mongoId, sender := sock.userId,
                message := text, createdAt := now }
            let st' := { st with chats := st.chats ++ [chat] }
            if populateThrows then
              (st', [(sid, .errorEvent "Failed to send message")])
            else
              let populated : PopulatedChat :=
                { cid := newId, roomId := room.mongoId,
                  sender := st.users.find? (fun u => u.uid == sock.userId),
                  message := text, createdAt := now }
              (st', broadcastAll st' rc (.chatMessage populated))

/-- The voice-toggle handler: no active room is a silent return; otherwise
relayed to the room minus the sender with the session identity filled in. -/
def voiceToggle (st : ServerState) (sid : Nat) (isEnabled : Bool) :
    ServerState × List Emit :=
  match st.findSession sid with
  | none => (st, [])
  | some sock =>
    match sock.roomCode with
    | none => (st, [])
    | some rc =>
      (st, broadcastExcept st rc sid
        (.voiceToggle sock.userId sock.user.username isEnabled))

/-- The voice-ready handler: identity-only payload to the room minus sender. -/
def voiceReady (st : ServerState) (sid : Nat) : ServerState × List Emit :=
  match st.findSession sid with
  | none => (st, [])
  | some sock =>
    match sock.roomCode with
    | none => (st, [])
    | some rc =>
      (st, broadcastExcept st rc sid (.voiceReady sock.userId sock.user.username))

/-- The webrtc-offer handler: opaque offer relayed to the room minus sender,
tagged with the sender identity. -/
def webrtcOffer (st : ServerState) (sid : Nat) (offer : String) :
    ServerState × List Emit :=
  match st.findSession sid with
  | none => (st, [])
  | some sock =>
    match sock.roomCode with
    | none => (st, [])
    | some rc =>
      (st, broadcastExcept st rc sid (.webrtcOffer sock.userId offer))

/-- The webrtc-answer handler, symmetric to the offer. -/
def webrtcAnswer (st : ServerState) (sid : Nat) (answer : String) :
    ServerState × List Emit :=
  match st.findSession sid with
  | none => (st, [])
  | some sock =>
    match sock.roomCode with
    | none => (st, [])
    | some rc =>
      (st, broadcastExcept st rc sid (.webrtcAnswer sock.userId answer))

/-- The webrtc-ice-candidate handler. -/
def webrtcIceCandidate (st : ServerState) (sid : Nat) (candidate : String) :
    ServerState × List Emit :=
  match st.findSession sid with
  | none => (st, [])
  | some sock =>
    match sock.roomCode with
    | none => (st, [])
    | some rc =>
      (st, broadcastExcept st rc sid (.webrtcIceCandidate sock.userId candidate))

/-- The disconnect handler: if the socket had a `roomCode`, a `user-left`
notice goes to that room's remaining members; then the session is gone. -/
def disconnectSocket (st : ServerState) (sid : Nat) : ServerState × List Emit :=
  match st.findSession sid with
  | none => (st.removeSession sid, [])
  | some sock =>
    match sock.roomCode with
    | none => (st.removeSession sid, [])
    | some rc =>
      (st.removeSession sid,
        broadcastExcept st rc sid (.userLeft sock.userId sock.user.username))

/-!
Concrete fixture used by the witnesses: alice and carol are joined to room
ROOMA (which has a board), bob is joined to room ROOMB (which has no board
snapshot), dave is authenticated but has not joined any room.
-/

def alice : User := { uid := "u-alice", username := "alice", avatar := "a.png" }

def bob : User := { uid := "u-bob", username := "bob", avatar := "b.png" }

def carol : User := { uid := "u-carol", username := "carol", avatar := "c.png" }

def dave : User := { uid := "u-dave", username := "dave", avatar := "d.png" }

def roomA : Room := { roomId := "ROOMA", mongoId := "m-A", participants := ["u-alice", "u-carol"] }

def roomB : Room := { roomId := "ROOMB", mongoId := "m-B", participants := ["u-alice", "u-bob"] }

def sessA : Session :=
  { sid := 0, userId := "u-alice", user := alice, roomCode := some "ROOMA", rooms := ["ROOMA"] }

def sessC : Session :=
  { sid := 1, userId := "u-carol", user := carol, roomCode := some "ROOMA", rooms := ["ROOMA"] }

def sessB : Session :=
  { sid := 2, userId := "u-bob", user := bob, roomCode := some "ROOMB", rooms := ["ROOMB"] }

def sessD : Session :=
  { sid := 3, userId := "u-dave", user := dave, roomCode := none, rooms := [] }

def boardA : Board := { roomId := "m-A", elements := ["stroke-1"], lastClearedBy := none }

def st0 : ServerState :=
  { users := [alice, bob, carol, dave], rooms := [roomA, roomB],
    boards := [boardA], chats := [], sessions := [sessA, sessC, sessB, sessD] }

/-!
Helper lemmas about the state primitives.
-/

theorem find?_map_update (l : List Session) (sid : Nat) (f : Session → Session)
    (hf : ∀ s, (f s).sid = s.sid) :
    (l.map (fun s => if s.sid == sid then f s else s)).find? (fun s => s.sid == sid) =
      (l.find? (fun s => s.sid == sid)).map f := by
  induction l with
  | nil => simp
  | cons a l ih =>
    cases hb : (a.sid == sid)
    case false =>
      rw [List.map_cons, if_neg (by simp [hb]),
        List.find?_cons_of_neg (p := fun (s : Session) => s.sid == sid) _ (by simp [hb]),
        List.find?_cons_of_neg (p := fun (s : Session) => s.sid == sid) _ (by simp [hb]), ih]
    case true =>
      have hfb : ((f a).sid == sid) = true := by rw [hf]; exact hb
      rw [List.map_cons, if_pos hb,
        List.find?_cons_of_pos (p := fun (s : Session) => s.sid == sid) _ hfb,
        List.find?_cons_of_pos (p := fun (s : Session) => s.sid == sid) _ hb, Option.map_some']

theorem findSession_updateSession (st : ServerState) (sid : Nat) (f : Session → Session)
    (hf : ∀ s, (f s).sid = s.sid) :
    (st.updateSession sid f).findSession sid = (st.findSession sid).map f := by
  unfold ServerState.updateSession ServerState.findSession
  exact find?_map_update st.sessions sid f hf

theorem sessions_updateSession (st : ServerState) (sid : Nat) (f : Session → Session) :
    (st.updateSession sid f).sessions =
      st.sessions.map (fun s => if s.sid == sid then f s else s) := rfl

theorem mem_sessions_of_findSession (st : ServerState) (sid : Nat) (sock : Session)
    (h : st.findSession sid = some sock) : sock ∈ st.sessions :=
  List.mem_of_find?_eq_some h

theorem sid_of_findSession (st : ServerState) (sid : Nat) (sock : Session)
    (h : st.findSession sid = some sock) : sock.sid = sid := by
  have := List.find?_some h
  simpa using this

theorem mem_updateSession_of_ne (st : ServerState) (sid : Nat) (f : Session → Session)
    (s : Session) (hs : s ∈ st.sessions) (hne : s.sid ≠ sid) :
    s ∈ (st.updateSession sid f).sessions := by
  rw [sessions_updateSession]
  exact List.mem_map.mpr ⟨s, hs, by simp [hne]⟩

theorem self_mem_updateSession (st : ServerState) (sid : Nat) (f : Session → Session)
    (sock : Session) (hs : sock ∈ st.sessions) (hsid : sock.sid = sid) :
    f sock ∈ (st.updateSession sid f).sessions := by
  rw [sessions_updateSession]
  exact List.mem_map.mpr ⟨sock, hs, by simp [hsid]⟩

theorem mem_broadcastExcept (st : ServerState) (rc : String) (sender : Nat)
    (ev : ClientEvent) (s : Session) (hs : s ∈ st.sessions)
    (hin : s.rooms.contains rc = true) (hne : s.sid ≠ sender) :
    (s.sid, ev) ∈ broadcastExcept st rc sender ev := by
  unfold broadcastExcept
  refine List.mem_map.mpr ⟨s, List.mem_filter.mpr ⟨hs, ?_⟩, rfl⟩
  rw [Bool.and_eq_true]
  exact ⟨hin, by simpa using hne⟩

theorem mem_broadcastAll (st : ServerState) (rc : String) (ev : ClientEvent)
    (s : Session) (hs : s ∈ st.sessions) (hin : s.rooms.contains rc = true) :
    (s.sid, ev) ∈ broadcastAll st rc ev := by
  unfold broadcastAll
  exact List.mem_map.mpr ⟨s, List.mem_filter.mpr ⟨hs, hin⟩, rfl⟩

theorem snd_mem_broadcastExcept (st : ServerState) (rc : String) (sender : Nat)
    (ev : ClientEvent) (e : Emit) (he : e ∈ broadcastExcept st rc sender ev) :
    e.2 = ev := by
  unfold broadcastExcept at he
  obtain ⟨s, _, hs⟩ := List.mem_map.mp he
  rw [← hs]

theorem fst_mem_broadcastExcept_ne (st : ServerState) (rc : String) (sender : Nat)
    (ev : ClientEvent) (e : Emit) (he : e ∈ broadcastExcept st rc sender ev) :
    e.1 ≠ sender := by
  unfold broadcastExcept at he
  obtain ⟨s, hmem, hs⟩ := List.mem_map.mp he
  have := (List.mem_filter.mp hmem).2
  rw [← hs]
  simp only [Bool.and_eq_true, bne_iff_ne, ne_eq] at this
  exact this.2

theorem broadcastExcept_recipients_nodup (st : ServerState) (rc : String) (sender : Nat)
    (ev : ClientEvent) (h : (st.sessions.map (fun s => s.sid)).Nodup) :
    ((broadcastExcept st rc sender ev).map Prod.fst).Nodup := by
  unfold broadcastExcept
  rw [List.map_map]
  have hsub :
      List.Sublist
        ((st.sessions.filter (fun s => s.rooms.contains rc && s.sid != sender)).map
          (fun s => s.sid))
        (st.sessions.map (fun s => s.sid)) :=
    (List.filter_sublist _).map _
  have heq :
      (st.sessions.filter (fun s => s.rooms.contains rc && s.sid != sender)).map
          (Prod.fst ∘ fun s => ((s.sid, ev) : Emit)) =
        (st.sessions.filter (fun s => s.rooms.contains rc && s.sid != sender)).map
          (fun s => s.sid) := by
    simp [Function.comp]
  rw [heq]
  exact h.sublist hsub

/-- C2: for every join-room attempt where the room code does not exist, or the
requesting identity is not in the room's authorized-participant set, the
handler emits a single targeted error event to the requesting session only
('Room not found' resp. 'Access denied') and returns the state unchanged: no
session's membership changes, no user-joined notice reaches any room member,
and the requesting session is still present (the connection stays open). -/
theorem join_room_failure_targeted_error (st : ServerState) (sid : Nat) (sock : Session)
    (code : String) (hs : st.findSession sid = some sock) :
    (st.rooms.find? (fun r => r.roomId == code) = none →
      joinRoom st sid code false = (st, [(sid, .errorEvent "Room not found")])) ∧
    (∀ room, st.rooms.find? (fun r => r.roomId == code) = some room →
      room.participants.contains sock.userId = false →
      joinRoom st sid code false = (st, [(sid, .errorEvent "Access denied")])) := by
  constructor
  · intro hnone
    simp [joinRoom, hs, hnone]
  · intro room hroom hpart
    have hpart' : sock.userId ∉ room.participants := by simpa using hpart
    simp [joinRoom, hs, hroom, hpart']

/-- Witness for C2: in the fixture, joining the unknown code NOPE yields only
the targeted 'Room not found' error and the state is untouched. -/
theorem join_room_failure_targeted_error_witness :
    st0.findSession 0 = some sessA ∧
    joinRoom st0 0 "NOPE" false = (st0, [(0, .errorEvent "Room not found")]) :=
  ⟨by decide,
    (join_room_failure_targeted_error st0 0 sessA "NOPE" (by decide)).1 (by decide)⟩

/-- C10: a failed join-room attempt (store exception, unknown room code, or
access denied) is atomic for the session: the state is returned unchanged, the
session still carries its previous room code, and any subsequent drawing
update is relayed exactly as it would have been before the failed attempt. -/
theorem failed_join_atomic (st : ServerState) (sid : Nat) (sock : Session)
    (a code : String) (hs : st.findSession sid = some sock)
    (ha : sock.roomCode = some a) :
    ∀ ft : Bool,
      (ft = true ∨ st.rooms.find? (fun r => r.roomId == code) = none ∨
        (∃ room, st.rooms.find? (fun r => r.roomId == code) = some room ∧
          room.participants.contains sock.userId = false)) →
      (joinRoom st sid code ft).1 = st ∧
      (joinRoom st sid code ft).1.findSession sid = some sock ∧
      sock.roomCode = some a ∧
      (∀ d f1 f2 f3, drawingUpdate (joinRoom st sid code ft).1 sid d f1 f2 f3 =
        drawingUpdate st sid d f1 f2 f3) := by
  intro ft hfail
  have h1 : (joinRoom st sid code ft).1 = st := by
    rcases hfail with hft | hnone | ⟨room, hroom, hpart⟩
    · simp [joinRoom, hs, hft]
    · cases ft
      · simp [joinRoom, hs, hnone]
      · simp [joinRoom, hs]
    · have hpart' : sock.userId ∉ room.participants := by simpa using hpart
      cases ft
      · simp [joinRoom, hs, hroom, hpart']
      · simp [joinRoom, hs]
  exact ⟨h1, by rw [h1]; exact hs, ha, fun d f1 f2 f3 => by rw [h1]⟩

/-- Witness for C10: alice (already joined to ROOMA) has her join-room for
ROOMB fail with a store exception; her session still records ROOMA. -/
theorem failed_join_atomic_witness :
    st0.findSession 0 = some sessA ∧ sessA.roomCode = some "ROOMA" ∧
    ((joinRoom st0 0 "ROOMB" true).1 = st0 ∧
      (joinRoom st0 0 "ROOMB" true).1.findSession 0 = some sessA) :=
  ⟨by decide, by decide,
    ⟨(failed_join_atomic st0 0 sessA "ROOMA" "ROOMB" (by decide) (by decide) true
        (Or.inl rfl)).1,
      (failed_join_atomic st0 0 sessA "ROOMA" "ROOMB" (by decide) (by decide) true
        (Or.inl rfl)).2.1⟩⟩

/-- C3: on a successful join-room by an authorized session, the handler
records the room code on the session, adds the session to the room's live
membership, and broadcasts a user-joined notice carrying the joiner's
userId, username and avatar to every other session currently in that room;
no emission of the handler targets the joining session itself. -/
theorem join_room_success_notice (st : ServerState) (sid : Nat) (sock : Session)
    (code : String) (room : Room)
    (hs : st.findSession sid = some sock)
    (hroom : st.rooms.find? (fun r => r.roomId == code) = some room)
    (hpart : room.participants.contains sock.userId = true) :
    (joinRoom st sid code false).1.findSession sid = some
      { sock with
          roomCode := some code,
          rooms := if sock.rooms.contains code then sock.rooms else code :: sock.rooms } ∧
    (if sock.rooms.contains code then sock.rooms
      else code :: sock.rooms).contains code = true ∧
    (joinRoom st sid code false).2 =
      broadcastExcept (joinRoom st sid code false).1 code sid
        (.userJoined sock.userId sock.user.username sock.user.avatar) ∧
    (∀ s ∈ st.sessions, s.sid ≠ sid → s.rooms.contains code = true →
      (s.sid, ClientEvent.userJoined sock.userId sock.user.username sock.user.avatar) ∈
        (joinRoom st sid code false).2) ∧
    (∀ e ∈ (joinRoom st sid code false).2, e.1 ≠ sid) := by
  have hpart' : sock.userId ∈ room.participants := by simpa using hpart
  have hju : joinRoom st sid code false =
      (st.updateSession sid (fun s =>
        { s with roomCode := some code,
                 rooms := if s.rooms.contains code then s.rooms else code :: s.rooms }),
       broadcastExcept
        (st.updateSession sid (fun s =>
          { s with roomCode := some code,
                   rooms := if s.rooms.contains code then s.rooms else code :: s.rooms }))
        code sid (.userJoined sock.userId sock.user.username sock.user.avatar)) := by
    simp [joinRoom, hs, hroom, hpart']
  refine ⟨?_, ?_, ?_, ?_, ?_⟩
  · rw [hju]
    rw [findSession_updateSession st sid (fun s =>
      { s with roomCode := some code,
               rooms := if s.rooms.contains code then s.rooms else code :: s.rooms })
      (fun _ => rfl), hs, Option.map_some']
  · by_cases h : code ∈ sock.rooms
    · simp [h]
    · simp [h]
  · rw [hju]
  · intro s hmem hne hin
    rw [hju]
    exact mem_broadcastExcept _ _ _ _ s (mem_updateSession_of_ne st sid _ s hmem hne) hin hne
  · intro e he
    rw [hju] at he
    exact fst_mem_broadcastExcept_ne _ _ _ _ e he

/-- Witness for C3: bob, an authorized participant of ROOMB, joins it; no
emission of the join targets bob himself. -/
theorem join_room_success_notice_witness :
    st0.findSession 2 = some sessB ∧
    st0.rooms.find? (fun r => r.roomId == "ROOMB") = some roomB ∧
    roomB.participants.contains sessB.userId = true ∧
    (∀ e ∈ (joinRoom st0 2 "ROOMB" false).2, e.1 ≠ 2) :=
  ⟨by decide, by decide, by decide,
    (join_room_success_notice st0 2 sessB "ROOMB" roomB (by decide) (by decide)
      (by decide)).2.2.2.2⟩

theorem drawingUpdate_fst_of_ne_clear (st : ServerState) (sid : Nat) (data : DrawData)
    (f1 f2 f3 : Bool) (h : data.type ≠ "clear") :
    (drawingUpdate st sid data f1 f2 f3).1 = st := by
  cases hfs : st.findSession sid with
  | none => simp [drawingUpdate, hfs]
  | some sock =>
    cases hrc : sock.roomCode with
    | none => simp [drawingUpdate, hfs, hrc]
    | some rc => simp [drawingUpdate, hfs, hrc, h]

/-- C4: a drawing-update from a session with an active room is relayed to
every other session in the room — never to the sender — with the userId field
overwritten by the server with the sending session's identity; when the
sub-kind is not a board clear (in particular for cursor updates) the state is
returned untouched, so no persistence side effect is triggered no matter how
many times the event is sent. -/
theorem drawing_update_stamped (st : ServerState) (sid : Nat) (sock : Session)
    (rc : String) (data : DrawData) (f1 f2 f3 : Bool)
    (hs : st.findSession sid = some sock) (hrc : sock.roomCode = some rc)
    (hnc : data.type ≠ "clear") :
    drawingUpdate st sid data f1 f2 f3 =
      (st, broadcastExcept st rc sid
        (.drawingUpdate { data with userId := some sock.userId })) ∧
    (∀ e ∈ (drawingUpdate st sid data f1 f2 f3).2,
      e.2 = ClientEvent.drawingUpdate { data with userId := some sock.userId } ∧
        e.1 ≠ sid) ∧
    (∀ s ∈ st.sessions, s.sid ≠ sid → s.rooms.contains rc = true →
      (s.sid, ClientEvent.drawingUpdate { data with userId := some sock.userId }) ∈
        (drawingUpdate st sid data f1 f2 f3).2) ∧
    (∀ n : Nat, (fun t => (drawingUpdate t sid data f1 f2 f3).1)^[n] st = st) := by
  have heq : drawingUpdate st sid data f1 f2 f3 =
      (st, broadcastExcept st rc sid
        (.drawingUpdate { data with userId := some sock.userId })) := by
    simp [drawingUpdate, hs, hrc, hnc]
  refine ⟨heq, ?_, ?_, ?_⟩
  · intro e he
    rw [heq] at he
    exact ⟨snd_mem_broadcastExcept _ _ _ _ e he, fst_mem_broadcastExcept_ne _ _ _ _ e he⟩
  · intro s hmem hne hin
    rw [heq]
    exact mem_broadcastExcept _ _ _ _ s hmem hin hne
  · intro n
    induction n with
    | zero => rfl
    | succ k ih =>
      rw [Function.iterate_succ_apply', ih,
        drawingUpdate_fst_of_ne_clear _ _ _ _ _ _ hnc]

/-- Witness for C4: alice sends a cursor update with a spoofed userId; the
relay goes out stamped with her own identity and the state is unchanged. -/
theorem drawing_update_stamped_witness :
    st0.findSession 0 = some sessA ∧ sessA.roomCode = some "ROOMA" ∧
    drawingUpdate st0 0 { type := "cursor", userId := some "spoof", payload := "p" }
        false false false =
      (st0, broadcastExcept st0 "ROOMA" 0
        (.drawingUpdate
          { type := "cursor", userId := some sessA.userId, payload := "p" })) :=
  ⟨by decide, by decide,
    (drawing_update_stamped st0 0 sessA "ROOMA"
      { type := "cursor", userId := some "spoof", payload := "p" } false false false
      (by decide) (by decide) (by decide)).1⟩

/-- Counterexample to C5 as stated: bob has an active room ROOMB whose board
snapshot does not exist; his board-clear fails to reset anything, yet the
handler reports nothing to him (the output carries no error event at all —
here it is empty because ROOMB has no other member) and the state is
unchanged.  The failure of the reset by a missing board snapshot is thus not
reported to the acting session. -/
theorem clear_missing_board_unreported :
    drawingUpdate st0 2 { type := "clear", userId := none, payload := "" }
      false false false = (st0, []) := by decide

/-- C5 (amended): a board clear from a session with an active room is relayed
to every other session in the room exactly once per send — the relay list is
the same whether the underlying snapshot reset succeeds or throws — and a
thrown store error at any of the three steps of the reset (the room lookup,
the board lookup, or the clearBoard call itself) is reported to the acting
session; a missing room record or missing board snapshot, however, is
silently ignored (no report to the actor, no state change). -/
theorem clear_relay_best_effort (st : ServerState) (sid : Nat) (sock : Session)
    (rc : String) (d : DrawData) (f1 f2 f3 : Bool)
    (hs : st.findSession sid = some sock) (hrc : sock.roomCode = some rc)
    (hd : d.type = "clear") :
    ((drawingUpdate st sid d f1 f2 f3).2 =
        broadcastExcept st rc sid (.drawingUpdate { d with userId := some sock.userId }) ∨
      (drawingUpdate st sid d f1 f2 f3).2 =
        broadcastExcept st rc sid (.drawingUpdate { d with userId := some sock.userId }) ++
          [(sid, .errorEvent "Failed to update drawing")]) ∧
    (f1 = true → drawingUpdate st sid d f1 f2 f3 =
      (st, broadcastExcept st rc sid (.drawingUpdate { d with userId := some sock.userId }) ++
        [(sid, .errorEvent "Failed to update drawing")])) ∧
    (f1 = false → st.rooms.find? (fun r => r.roomId == rc) = none →
      drawingUpdate st sid d f1 f2 f3 =
        (st, broadcastExcept st rc sid
          (.drawingUpdate { d with userId := some sock.userId }))) ∧
    (∀ room, f1 = false → st.rooms.find? (fun r => r.roomId == rc) = some room →
      f2 = false → st.boards.find? (fun b => b.roomId == room.mongoId) = none →
      drawingUpdate st sid d f1 f2 f3 =
        (st, broadcastExcept st rc sid
          (.drawingUpdate { d with userId := some sock.userId }))) ∧
    (∀ room, f1 = false → st.rooms.find? (fun r => r.roomId == rc) = some room →
      f2 = true → drawingUpdate st sid d f1 f2 f3 =
        (st, broadcastExcept st rc sid
          (.drawingUpdate { d with userId := some sock.userId }) ++
          [(sid, .errorEvent "Failed to update drawing")])) ∧
    (∀ room bd, f1 = false → st.rooms.find? (fun r => r.roomId == rc) = some room →
      f2 = false → st.boards.find? (fun b => b.roomId == room.mongoId) = some bd →
      f3 = true → drawingUpdate st sid d f1 f2 f3 =
        (st, broadcastExcept st rc sid
          (.drawingUpdate { d with userId := some sock.userId }) ++
          [(sid, .errorEvent "Failed to update drawing")])) := by
  refine ⟨?_, ?_, ?_, ?_, ?_, ?_⟩
  · cases f1 with
    | true => right; simp [drawingUpdate, hs, hrc, hd]
    | false =>
      cases hr : st.rooms.find? (fun r => r.roomId == rc) with
      | none => left; simp [drawingUpdate, hs, hrc, hd, hr]
      | some room =>
        cases f2 with
        | true => right; simp [drawingUpdate, hs, hrc, hd, hr]
        | false =>
          cases hbd : st.boards.find? (fun b => b.roomId == room.mongoId) with
          | none => left; simp [drawingUpdate, hs, hrc, hd, hr, hbd]
          | some b =>
            cases f3 with
            | true => right; simp [drawingUpdate, hs, hrc, hd, hr, hbd]
            | false => left; simp [drawingUpdate, hs, hrc, hd, hr, hbd]
  · intro hf1
    subst hf1
    simp [drawingUpdate, hs, hrc, hd]
  · intro hf1 hr
    subst hf1
    simp [drawingUpdate, hs, hrc, hd, hr]
  · intro room hf1 hr hf2 hbd
    subst hf1
    subst hf2
    simp [drawingUpdate, hs, hrc, hd, hr, hbd]
  · intro room hf1 hr hf2
    subst hf1
    subst hf2
    simp [drawingUpdate, hs, hrc, hd, hr]
  · intro room bd hf1 hr hf2 hbd hf3
    subst hf1
    subst hf2
    subst hf3
    simp [drawingUpdate, hs, hrc, hd, hr, hbd]

/-- Witness for C5 (amended): alice clears the board of ROOMA while the
store's room lookup for the reset throws; the clear still reaches carol and
the error is reported back to alice. -/
theorem clear_relay_best_effort_witness :
    st0.findSession 0 = some sessA ∧ sessA.roomCode = some "ROOMA" ∧
    drawingUpdate st0 0 { type := "clear", userId := none, payload := "" }
        true false false =
      (st0, broadcastExcept st0 "ROOMA" 0
        (.drawingUpdate { type := "clear", userId := some sessA.userId, payload := "" }) ++
        [(0, .errorEvent "Failed to update drawing")]) :=
  ⟨by decide, by decide,
    (clear_relay_best_effort st0 0 sessA "ROOMA"
      { type := "clear", userId := none, payload := "" } true false false
      (by decide) (by decide) (by decide)).2.1 rfl⟩

/-- C1: a chat-message from a session with an active room is broadcast only
after the ChatMessage row has been persisted: on every failure path (the room
lookup throws, the room is missing, the create throws, or the populate
re-read throws) the only output is a single targeted error to the sender and
no chat-message event is broadcast — in the first three cases nothing is
persisted either; on the success path the broadcast goes to the whole room
including the sender and its payload is the persisted, sender-enriched
record (server id, server timestamp, sender resolved from the user store),
never the raw input. -/
theorem chat_message_persisted_before_broadcast (st : ServerState) (sid : Nat)
    (sock : Session) (rc : String) (text : String) (rft ct pt : Bool)
    (newId : String) (now : Nat)
    (hs : st.findSession sid = some sock) (hrc : sock.roomCode = some rc)
    (hm : sock.rooms.contains rc = true) :
    (rft = true → chatMessage st sid text rft ct pt newId now =
      (st, [(sid, .errorEvent "Failed to send message")])) ∧
    (rft = false → st.rooms.find? (fun r => r.roomId == rc) = none →
      chatMessage st sid text rft ct pt newId now =
        (st, [(sid, .errorEvent "Room not found")])) ∧
    (∀ room, rft = false → st.rooms.find? (fun r => r.roomId == rc) = some room →
      ct = true → chatMessage st sid text rft ct pt newId now =
        (st, [(sid, .errorEvent "Failed to send message")])) ∧
    (∀ room, rft = false → st.rooms.find? (fun r => r.roomId == rc) = some room →
      ct = false → pt = true →
      chatMessage st sid text rft ct pt newId now =
        ({ st with chats := st.chats ++
            [{ cid := newId, roomId := room.mongoId, sender := sock.userId,
               message := text, createdAt := now }] },
         [(sid, .errorEvent "Failed to send message")])) ∧
    (∀ room, rft = false → st.rooms.find? (fun r => r.roomId == rc) = some room →
      ct = false → pt = false →
      chatMessage st sid text rft ct pt newId now =
        ({ st with chats := st.chats ++
            [{ cid := newId, roomId := room.mongoId, sender := sock.userId,
               message := text, createdAt := now }] },
         broadcastAll
          { st with chats := st.chats ++
              [{ cid := newId, roomId := room.mongoId, sender := sock.userId,
                 message := text, createdAt := now }] } rc
          (.chatMessage
            { cid := newId, roomId := room.mongoId,
              sender := st.users.find? (fun u => u.uid == sock.userId),
              message := text, createdAt := now })) ∧
      ({ cid := newId, roomId := room.mongoId, sender := sock.userId,
         message := text, createdAt := now } : Chat) ∈
        (chatMessage st sid text rft ct pt newId now).1.chats ∧
      (sid, ClientEvent.chatMessage
          { cid := newId, roomId := room.mongoId,
            sender := st.users.find? (fun u => u.uid == sock.userId),
            message := text, createdAt := now }) ∈
        (chatMessage st sid text rft ct pt newId now).2) := by
  refine ⟨?_, ?_, ?_, ?_, ?_⟩
  · intro h1
    subst h1
    simp [chatMessage, hs, hrc]
  · intro h1 h2
    subst h1
    simp [chatMessage, hs, hrc, h2]
  · intro room h1 h2 h3
    subst h1
    subst h3
    simp [chatMessage, hs, hrc, h2]
  · intro room h1 h2 h3 h4
    subst h1
    subst h3
    subst h4
    simp [chatMessage, hs, hrc, h2]
  · intro room h1 h2 h3 h4
    subst h1
    subst h3
    subst h4
    have heq : chatMessage st sid text false false false newId now =
        ({ st with chats := st.chats ++
            [{ cid := newId, roomId := room.mongoId, sender := sock.userId,
               message := text, createdAt := now }] },
         broadcastAll
          { st with chats := st.chats ++
              [{ cid := newId, roomId := room.mongoId, sender := sock.userId,
                 message := text, createdAt := now }] } rc
          (.chatMessage
            { cid := newId, roomId := room.mongoId,
              sender := st.users.find? (fun u => u.uid == sock.userId),
              message := text, createdAt := now })) := by
      simp [chatMessage, hs, hrc, h2]
    refine ⟨heq, ?_, ?_⟩
    · rw [heq]
      simp
    · rw [heq]
      have hsid := sid_of_findSession st sid sock hs
      have := mem_broadcastAll
        { st with chats := st.chats ++
            [{ cid := newId, roomId := room.mongoId, sender := sock.userId,
               message := text, createdAt := now }] } rc
        (.chatMessage
          { cid := newId, roomId := room.mongoId,
            sender := st.users.find? (fun u => u.uid == sock.userId),
            message := text, createdAt := now })
        sock (mem_sessions_of_findSession st sid sock hs) hm
      rw [hsid] at this
      exact this

/-- Witness for C1: alice sends "hi" in ROOMA; the persisted, enriched row is
broadcast to alice and carol, and the row is in the chat store. -/
theorem chat_message_persisted_before_broadcast_witness :
    st0.findSession 0 = some sessA ∧ sessA.roomCode = some "ROOMA" ∧
    ({ cid := "c1", roomId := "m-A", sender := "u-alice",
       message := "hi", createdAt := 42 } : Chat) ∈
      (chatMessage st0 0 "hi" false false false "c1" 42).1.chats :=
  ⟨by decide, by decide,
    ((chat_message_persisted_before_broadcast st0 0 sessA "ROOMA" "hi" false false false
        "c1" 42 (by decide) (by decide) (by decide)).2.2.2.2 roomA rfl (by decide) rfl
      rfl).2.1⟩

/-- C6: every room-scoped event kind (drawing-update, chat-message,
voice-toggle, voice-ready, webrtc-offer, webrtc-answer, webrtc-ice-candidate)
received from a session with no active room is silently dropped: the handler
returns the state unchanged (nothing persisted), emits nothing to anyone, and
reports no error to the sender. -/
theorem no_active_room_silent_drop (st : ServerState) (sid : Nat) (sock : Session)
    (hs : st.findSession sid = some sock) (hrc : sock.roomCode = none) :
    (∀ d f1 f2 f3, drawingUpdate st sid d f1 f2 f3 = (st, [])) ∧
    (∀ text rft ct pt newId now, chatMessage st sid text rft ct pt newId now = (st, [])) ∧
    (∀ b, voiceToggle st sid b = (st, [])) ∧
    voiceReady st sid = (st, []) ∧
    (∀ o, webrtcOffer st sid o = (st, [])) ∧
    (∀ a, webrtcAnswer st sid a = (st, [])) ∧
    (∀ c, webrtcIceCandidate st sid c = (st, [])) := by
  refine ⟨?_, ?_, ?_, ?_, ?_, ?_, ?_⟩ <;> intros <;>
    simp [drawingUpdate, chatMessage, voiceToggle, voiceReady, webrtcOffer,
      webrtcAnswer, webrtcIceCandidate, hs, hrc]

/-- Witness for C6: dave is authenticated but has joined no room; his chat
message is silently dropped. -/
theorem no_active_room_silent_drop_witness :
    st0.findSession 3 = some sessD ∧ sessD.roomCode = none ∧
    chatMessage st0 3 "hello" false false false "c9" 7 = (st0, []) :=
  ⟨by decide, by decide,
    (no_active_room_silent_drop st0 3 sessD (by decide) (by decide)).2.1
      "hello" false false false "c9" 7⟩

/-- C7: authentication failure is uniform and happens before the relay: a
missing token, a token whose verification throws, and a verified token whose
identity is not in the user store all produce the very same generic
'Authentication error' with the state untouched; a rejected fresh connection
leaves no session behind, so every room handler is a no-op for that socket
id; a successful connection appends a session tagged with the verified
identity from the store. -/
theorem auth_generic_failure (st : ServerState) (sid : Nat) :
    connectSocket st sid .missing = (st, some "Authentication error") ∧
    connectSocket st sid .invalidSignature = (st, some "Authentication error") ∧
    (∀ uid, st.users.find? (fun u => u.uid == uid) = none →
      connectSocket st sid (.valid uid) = (st, some "Authentication error")) ∧
    (st.findSession sid = none → ∀ tok e, connectSocket st sid tok = (st, some e) →
      (connectSocket st sid tok).1.findSession sid = none ∧
      ∀ code f, joinRoom (connectSocket st sid tok).1 sid code f =
        ((connectSocket st sid tok).1, [])) ∧
    (∀ uid u, st.users.find? (fun u => u.uid == uid) = some u →
      connectSocket st sid (.valid uid) =
        ({ st with sessions := st.sessions ++
            [{ sid := sid, userId := u.uid, user := u, roomCode := none, rooms := [] }] },
         none)) := by
  refine ⟨rfl, rfl, ?_, ?_, ?_⟩
  · intro uid hu
    simp [connectSocket, authenticateSocket, hu]
  · intro hfresh tok e hconn
    have h1 : (connectSocket st sid tok).1 = st := by rw [hconn]
    refine ⟨by rw [h1]; exact hfresh, ?_⟩
    intro code f
    rw [h1]
    simp [joinRoom, hfresh]
  · intro uid u hu
    simp [connectSocket, authenticateSocket, hu]

/-- Witness for C7: on the fixture all three failure causes at the fresh
socket id 9 give the same generic rejection, and a valid token for bob
creates a session tagged with bob's identity. -/
theorem auth_generic_failure_witness :
    connectSocket st0 9 .missing = (st0, some "Authentication error") ∧
    connectSocket st0 9 .invalidSignature = (st0, some "Authentication error") ∧
    connectSocket st0 9 (.valid "u-ghost") = (st0, some "Authentication error") ∧
    connectSocket st0 9 (.valid "u-bob") =
      ({ st0 with sessions := st0.sessions ++
          [{ sid := 9, userId := "u-bob", user := bob, roomCode := none, rooms := [] }] },
       none) :=
  ⟨(auth_generic_failure st0 9).1, (auth_generic_failure st0 9).2.1,
    (auth_generic_failure st0 9).2.2.1 "u-ghost" (by decide),
    (auth_generic_failure st0 9).2.2.2.2 "u-bob" bob (by decide)⟩

/-- C8: when a session disconnects while joined (it carries a room code), the
emitted notices are exactly one user-left event — with the departing
session's userId and username — per remaining member of that room: every
remaining member of the room receives it, the recipient list has no
duplicates, and the departing socket is not a recipient; a session that never
joined (no room code) produces no notice at all. -/
theorem disconnect_notifies_room (st : ServerState) (sid : Nat) (sock : Session)
    (hs : st.findSession sid = some sock)
    (hnd : (st.sessions.map (fun s => s.sid)).Nodup) :
    (∀ rc, sock.roomCode = some rc →
      (disconnectSocket st sid).2 =
        broadcastExcept st rc sid (.userLeft sock.userId sock.user.username) ∧
      (∀ s ∈ st.sessions, s.sid ≠ sid → s.rooms.contains rc = true →
        (s.sid, ClientEvent.userLeft sock.userId sock.user.username) ∈
          (disconnectSocket st sid).2) ∧
      ((disconnectSocket st sid).2.map Prod.fst).Nodup ∧
      (∀ e ∈ (disconnectSocket st sid).2, e.1 ≠ sid)) ∧
    (sock.roomCode = none → (disconnectSocket st sid).2 = []) := by
  constructor
  · intro rc hrc
    have heq : (disconnectSocket st sid).2 =
        broadcastExcept st rc sid (.userLeft sock.userId sock.user.username) := by
      simp [disconnectSocket, hs, hrc]
    refine ⟨heq, ?_, ?_, ?_⟩
    · intro s hmem hne hin
      rw [heq]
      exact mem_broadcastExcept _ _ _ _ s hmem hin hne
    · rw [heq]
      exact broadcastExcept_recipients_nodup _ _ _ _ hnd
    · intro e he
      rw [heq] at he
      exact fst_mem_broadcastExcept_ne _ _ _ _ e he
  · intro hrc
    simp [disconnectSocket, hs, hrc]

/-- Witness for C8: alice disconnects from ROOMA; carol (the remaining ROOMA
member) is exactly the recipient set of the user-left notice, and dave, who
never joined a room, disconnects silently. -/
theorem disconnect_notifies_room_witness :
    st0.findSession 0 = some sessA ∧ sessA.roomCode = some "ROOMA" ∧
    (disconnectSocket st0 0).2 =
      broadcastExcept st0 "ROOMA" 0 (.userLeft "u-alice" "alice") ∧
    (disconnectSocket st0 3).2 = [] :=
  ⟨by decide, by decide,
    ((disconnect_notifies_room st0 0 sessA (by decide) (by decide)).1 "ROOMA"
      (by decide)).1,
    (disconnect_notifies_room st0 3 sessD (by decide) (by decide)).2 (by decide)⟩

/-- Counterexample to C9 as stated: alice is joined to ROOMA (with carol as a
peer) and successfully joins ROOMB.  Afterwards her session still lists ROOMA
in its live broadcast membership — she is not a member of B only and still
receives events broadcast to ROOMA, as the third conjunct shows — and the
entire output of the switch is the single user-joined notice to bob in ROOMB:
carol, the remaining ROOMA peer, receives nothing, in particular no leave
notice. -/
theorem room_switch_counterexample :
    (joinRoom st0 0 "ROOMB" false).1.findSession 0 =
      some { sid := 0, userId := "u-alice", user := alice,
             roomCode := some "ROOMB", rooms := ["ROOMB", "ROOMA"] } ∧
    (joinRoom st0 0 "ROOMB" false).2 =
      [(2, .userJoined "u-alice" "alice" "a.png")] ∧
    (0, ClientEvent.voiceReady "u-carol" "carol") ∈
      broadcastAll (joinRoom st0 0 "ROOMB" false).1 "ROOMA"
        (.voiceReady "u-carol" "carol") :=
  ⟨by decide, by decide, by decide⟩

/-- C9 (amended): a second successful join while already joined overwrites
only the routing field: the session's recorded room code becomes the new
room, so its subsequent outgoing events are routed to the new room's members
only; but the session remains in the old room's live broadcast membership
(it is still a recipient of any broadcast to the old room) and no leave
notice is emitted to anyone during the switch. -/
theorem room_switch_overwrites_route (st : ServerState) (sid : Nat) (sock : Session)
    (a code : String) (room : Room)
    (hs : st.findSession sid = some sock) (ha : sock.roomCode = some a)
    (hmem : sock.rooms.contains a = true)
    (hroom : st.rooms.find? (fun r => r.roomId == code) = some room)
    (hpart : room.participants.contains sock.userId = true) :
    (joinRoom st sid code false).1.findSession sid = some
      { sock with
          roomCode := some code,
          rooms := if sock.rooms.contains code then sock.rooms else code :: sock.rooms } ∧
    (if sock.rooms.contains code then sock.rooms
      else code :: sock.rooms).contains a = true ∧
    (∀ ev, (sid, ev) ∈ broadcastAll (joinRoom st sid code false).1 a ev) ∧
    (∀ e ∈ (joinRoom st sid code false).2, ∀ u n, e.2 ≠ ClientEvent.userLeft u n) ∧
    (∀ b, voiceToggle (joinRoom st sid code false).1 sid b =
      ((joinRoom st sid code false).1,
        broadcastExcept (joinRoom st sid code false).1 code sid
          (.voiceToggle sock.userId sock.user.username b))) := by
  have hpart' : sock.userId ∈ room.participants := by simpa using hpart
  have hma : a ∈ sock.rooms := by simpa using hmem
  have hju : joinRoom st sid code false =
      (st.updateSession sid (fun s =>
        { s with roomCode := some code,
                 rooms := if s.rooms.contains code then s.rooms else code :: s.rooms }),
       broadcastExcept
        (st.updateSession sid (fun s =>
          { s with roomCode := some code,
                   rooms := if s.rooms.contains code then s.rooms else code :: s.rooms }))
        code sid (.userJoined sock.userId sock.user.username sock.user.avatar)) := by
    simp [joinRoom, hs, hroom, hpart']
  have hfs' : (joinRoom st sid code false).1.findSession sid = some
      { sock with
          roomCode := some code,
          rooms := if sock.rooms.contains code then sock.rooms else code :: sock.rooms } := by
    rw [hju]
    rw [findSession_updateSession st sid (fun s =>
      { s with roomCode := some code,
               rooms := if s.rooms.contains code then s.rooms else code :: s.rooms })
      (fun _ => rfl), hs, Option.map_some']
  have hca : (if sock.rooms.contains code then sock.rooms
      else code :: sock.rooms).contains a = true := by
    by_cases h : code ∈ sock.rooms
    · simp [h, hma]
    · simp [h, hma]
  refine ⟨hfs', hca, ?_, ?_, ?_⟩
  · intro ev
    have hsid := sid_of_findSession st sid sock hs
    have hmem' := self_mem_updateSession st sid (fun s =>
      { s with roomCode := some code,
               rooms := if s.rooms.contains code then s.rooms else code :: s.rooms })
      sock (mem_sessions_of_findSession st sid sock hs) hsid
    have := mem_broadcastAll (joinRoom st sid code false).1 a ev
      { sock with
          roomCode := some code,
          rooms := if sock.rooms.contains code then sock.rooms else code :: sock.rooms }
      (by rw [hju]; exact hmem') hca
    simpa [hsid] using this
  · intro e he u n
    rw [hju] at he
    have := snd_mem_broadcastExcept _ _ _ _ e he
    rw [this]
    simp
  · intro b
    simp [voiceToggle, hfs']

/-- Witness for C9 (amended): after alice's switch from ROOMA to ROOMB, a
broadcast to ROOMA still reaches her socket. -/
theorem room_switch_overwrites_route_witness :
    st0.findSession 0 = some sessA ∧ sessA.roomCode = some "ROOMA" ∧
    (0, ClientEvent.voiceToggle "u-carol" "carol" true) ∈
      broadcastAll (joinRoom st0 0 "ROOMB" false).1 "ROOMA"
        (.voiceToggle "u-carol" "carol" true) :=
  ⟨by decide, by decide,
    (room_switch_overwrites_route st0 0 sessA "ROOMA" "ROOMB" roomB (by decide)
      (by decide) (by decide) (by decide) (by decide)).2.2.1
      (.voiceToggle "u-carol" "carol" true)⟩
